import Mathlib

/-!
Shallow embedding of the Virtual Metrology RAG pipeline
(`agents/agent_orchestrator.py` and the components it wires together).

External collaborators (the embedding provider, the language-model
provider, the filesystem, the vector-store loader) are passed in as
function parameters; fallible calls return `Except`.
-/

namespace VirtualMetrology

/-- A chunk of an ingested document: text plus metadata
(source filename and position inside the parent document). -/
structure Chunk where
  text : String
  source : String
  chunk_index : Nat
deriving Repr, DecidableEq

/-- An index entry: a chunk together with its embedding vector.
Vectors are modelled as lists of rationals. -/
structure Entry where
  chunk : Chunk
  vec : List ℚ
deriving Repr, DecidableEq

/-- Inner product of two vectors (the provider-defined similarity of §3,
modelled as the inner product of rational vectors). -/
def dot : List ℚ → List ℚ → ℚ
  | [], _ => 0
  | _ :: _, [] => 0
  | a :: as, b :: bs => a * b + dot as bs

/-- Similarity score of an index entry against a query vector. -/
def score (v : List ℚ) (e : Entry) : ℚ := dot v e.vec

/-- The embedding model name hard-coded in `get_retrieval_chain`
(`agent_orchestrator.py`, line 19). -/
def hf_model_name : String := "sentence-transformers/all-MiniLM-L6-v2"

/-- Errors that `get_retrieval_chain` can surface to its caller:
the `FileNotFoundError` it raises itself (line 17), or a failure of the
external `FAISS.load_local` call. -/
inductive OrchestratorError where
  | fileNotFoundError (msg : String)
  | loadError (msg : String)
deriving Repr, DecidableEq

/-- The RetrievalQA chain object assembled by `get_retrieval_chain`
(lines 25-30): an LLM temperature setting, the chain type, a retriever
over the loaded store with its `k`, and the source-documents flag. -/
structure QAChain where
  chain_type : String
  retriever_store : List Entry
  retriever_k : Nat
  return_source_documents : Bool
deriving Repr, DecidableEq

/-- `get_retrieval_chain(vectorstore_path)` from `agent_orchestrator.py`:
raises `FileNotFoundError` when the path does not exist, otherwise loads
the FAISS store with the hard-coded HuggingFace embeddings and builds a
RetrievalQA chain with `k = 3` and `return_source_documents = True`.
The filesystem check `fs` and the external loader `load_local` are
parameters. -/
def get_retrieval_chain (fs : String → Bool)
    (load_local : String → String → Except String (List Entry))
    (vectorstore_path : String) : Except OrchestratorError QAChain :=
  if fs vectorstore_path = false then
    .error (.fileNotFoundError ("Vectorstore not found at " ++ vectorstore_path))
  else
    match load_local vectorstore_path hf_model_name with
    | .error e => .error (.loadError e)
    | .ok vs => .ok ⟨"stuff", vs, 3, true⟩

/-- The prompt template of `get_agent` (lines 41-46), with the question
substituted where the placeholder stands. -/
def prompt_format (question : String) : String :=
  "\n    You are a Virtual Metrology AI Assistant.\n    You analyze semiconductor process logs and generate insights.\n\n    User Question: " ++ question ++ "\n    "

/-- `agent_response(question)` from `get_agent` (lines 51-60): formats the
prompt, calls the LLM, and on any exception returns the descriptive
string `"Error while generating response: <e>"` instead of raising.
The LLM call is a parameter returning `Except` (error = raised
exception). The return type `String` reflects that no exception escapes. -/
def agent_response (llm : String → Except String String) (question : String) : String :=
  match llm (prompt_format question) with
  | .ok answer => answer
  | .error e => "Error while generating response: " ++ e

/-- Result record of `analyze_vm_data`: the stats dict under key
`stats` and the rule-check list under key `rules`. The stats payload
type is abstract because `compute_stats` lives in `agents/tools.py`,
outside the embedded source. -/
structure VMAnalysis (σ : Type) where
  stats : σ
  rules : List Bool
deriving Repr, DecidableEq

/-- `analyze_vm_data(data_list)` from `agent_orchestrator.py`
(lines 65-71): calls `compute_stats` on the whole list and
`simple_rule_check(val, 0.005)` on each element in order. The two tool
functions are parameters (they are defined in `agents/tools.py`). -/
def analyze_vm_data {σ : Type} (compute_stats : List ℚ → σ)
    (simple_rule_check : ℚ → ℚ → Bool) (data_list : List ℚ) : VMAnalysis σ :=
  ⟨compute_stats data_list, data_list.map (fun val => simple_rule_check val (5 / 1000))⟩

/-- Ranking relation used by nearest-neighbor search: entry `a` comes
before entry `b` when `a` scores strictly higher, or they tie and `a`
was ingested earlier (stable ties). Entries carry their original
ingestion position as the first component. -/
def rankRel (v : List ℚ) (a b : Nat × Entry) : Prop :=
  score v b.2 < score v a.2 ∨ (score v a.2 = score v b.2 ∧ a.1 ≤ b.1)

instance rankRelDecidable (v : List ℚ) : DecidableRel (rankRel v) := fun a b => by
  unfold rankRel; infer_instance

instance rankRelTotal (v : List ℚ) : IsTotal (Nat × Entry) (rankRel v) := by
  constructor
  intro a b
  rcases lt_trichotomy (score v a.2) (score v b.2) with h | h | h
  · exact Or.inr (Or.inl h)
  · rcases Nat.le_total a.1 b.1 with hn | hn
    · exact Or.inl (Or.inr ⟨h, hn⟩)
    · exact Or.inr (Or.inr ⟨h.symm, hn⟩)
  · exact Or.inl (Or.inl h)

instance rankRelTrans (v : List ℚ) : IsTrans (Nat × Entry) (rankRel v) := by
  constructor
  intro a b c hab hbc
  rcases hab with hab | ⟨hab, hab'⟩
  · rcases hbc with hbc | ⟨hbc, _⟩
    · exact Or.inl (hbc.trans hab)
    · exact Or.inl (by rw [← hbc]; exact hab)
  · rcases hbc with hbc | ⟨hbc, hbc'⟩
    · exact Or.inl (by rw [hab]; exact hbc)
    · exact Or.inr ⟨hab.trans hbc, hab'.trans hbc'⟩

/-- Modelled from the spec: the Document Store & Vector Index `search`
operation (§4.2). The store wraps the external FAISS library, whose
search code is not part of this repository, so it is modelled from the
spec's words: entries ranked by descending similarity, ties broken by
original ingestion order, truncated to `k`. Entries are returned with
their ingestion position. -/
def search (index : List Entry) (v : List ℚ) (k : Nat) : List (Nat × Entry) :=
  (List.insertionSort (rankRel v) index.enum).take k

/-- Projection of `search` results to the (chunk, score) pairs of the
§4.2 contract. -/
def search_results (index : List Entry) (v : List ℚ) (k : Nat) : List (Chunk × ℚ) :=
  (search index v k).map (fun p => (p.2.chunk, score v p.2))

/-- The `QueryResult` of §3: the synthesized answer plus the ordered
source chunks given to the model. -/
structure QueryResult where
  answer_text : String
  source_chunks : List Chunk
deriving Repr, DecidableEq

/-- Modelled from the spec: execution of the RetrievalQA chain (§4.3).
Only the chain's construction is under `src/`; the chain's run loop
lives in the external langchain library, so it is modelled from the
spec's algorithm: embed the query, search the store with `k`, pass the
ordered chunks with the query to the synthesizer, and assemble the
`QueryResult` with the synthesizer's answer and the same ordered
chunks. -/
def retrieve_and_answer (embed : String → List ℚ) (index : List Entry)
    (synthesize : String → List Chunk → String)
    (query_text : String) (k : Nat) : QueryResult :=
  let chunks := (search index (embed query_text) k).map (fun p => p.2.chunk)
  ⟨synthesize query_text chunks, chunks⟩

/-- Identity of an embedding configuration: model name and output
dimension (§3's Embedding Vector invariant). -/
structure EmbedConfig where
  model_name : String
  dim : Nat
deriving Repr, DecidableEq

/-- Error taxonomy of the Document Store load/query path (§7). -/
inductive StoreError where
  | indexNotFoundError
  | indexCorruptError
  | configMismatchError
deriving Repr, DecidableEq

/-- A loaded index handle: the embedding configuration the index was
built with, plus its entries (§4.2 `load`). -/
structure IndexHandle where
  config : EmbedConfig
  entries : List Entry
deriving Repr, DecidableEq

/-- Modelled from the spec: config-mismatch detection at query time
(§7 `ConfigMismatchError`). The Document Store wrapper that would hold
this check is not under `src/`, so it is modelled from the spec's
words: if the query-time embedding configuration differs from the one
the loaded index was built with, raise `ConfigMismatchError`; only
otherwise compute similarity scores. -/
def search_checked (h : IndexHandle) (provider : EmbedConfig)
    (v : List ℚ) (k : Nat) : Except StoreError (List (Chunk × ℚ)) :=
  if provider ≠ h.config then .error .configMismatchError
  else .ok (search_results h.entries v k)

/-- Maximum chunk length of the deterministic splitting policy
(the spec's §9 open question fixes e.g. 500 characters; any positive
constant works for the properties proved here). -/
def chunk_size : Nat := 500

/-- Deterministic, length-bounded splitting of a character list into
spans of at most `chunk_size` characters (§4.1's splitting policy).
The fuel argument starts at the list's length; since every step
consumes at least one character, the zero-fuel branch is unreachable. -/
def split_spans_go : Nat → List Char → List String
  | _, [] => []
  | 0, rest => [String.mk rest]
  | n + 1, c :: cs => String.mk ((c :: cs).take chunk_size) :: split_spans_go n ((c :: cs).drop chunk_size)

/-- Split a character list into successive spans of `chunk_size`
characters. Deterministic: a pure function of the input text. -/
def split_spans (cs : List Char) : List String :=
  split_spans_go cs.length cs

/-- An input file: filename and full text (§3 Document). -/
structure File where
  filename : String
  text : String
deriving Repr, DecidableEq

/-- Chunks of one file, each carrying the source filename and its
position inside the file (§3 Chunk). -/
def file_chunks (f : File) : List Chunk :=
  (split_spans f.text.data).enum.map (fun p => ⟨p.2, f.filename, p.1⟩)

/-- All chunks of a folder's files, in file order then chunk order. -/
def all_chunks (files : List File) : List Chunk :=
  (files.map file_chunks).flatten

/-- Embed every chunk in order via the (fallible) Embedding Provider,
stopping at the first failure (§4.1: a failure to embed any single
chunk aborts the run). -/
def embed_all (embed : String → Except String (List ℚ)) :
    List Chunk → Except String (List Entry)
  | [] => .ok []
  | c :: cs =>
    match embed c.text with
    | .error e => .error e
    | .ok v =>
      match embed_all embed cs with
      | .error e => .error e
      | .ok rest => .ok (⟨c, v⟩ :: rest)

/-- The durable state readers observe: the persisted Vector Index
entries and the Docs Metadata Manifest, positionally aligned (§3, §6). -/
structure PersistedState where
  entries : List Entry
  manifest : List Chunk
deriving Repr, DecidableEq

/-- Ingestion build report (§4.1). -/
structure IndexBuildReport where
  files_processed : Nat
  chunks_created : Nat
deriving Repr, DecidableEq

/-- Modelled from the spec: the Ingestion Pipeline `ingest` (§4.1).
`data_ingest/ingest.py` is imported by `src/` but is not itself under
`src/`, so ingestion is modelled from the spec's words: split every
file deterministically, embed every chunk, and commit the fully-built
new index generation atomically — the returned state is either the new
generation (full success) or exactly the previous state (any failure);
no intermediate state ever exists. -/
def ingest_folder (embed : String → Except String (List ℚ))
    (files : List File) (s : PersistedState) :
    PersistedState × Except String IndexBuildReport :=
  let chunks := all_chunks files
  match embed_all embed chunks with
  | .error e => (s, .error e)
  | .ok entries =>
    (⟨entries, chunks⟩, .ok ⟨files.length, chunks.length⟩)

/-- C1: For every question string, if the Language Model Provider call
raises an exception, `agent_response` still returns a string result
whose text communicates the failure (the fixed error marker followed by
the exception's text); its return type being plain `String`, no
exception propagates past the component boundary. -/
theorem c1_agent_response_contains_provider_failure
    (llm : String → Except String String) (question e : String)
    (hfail : llm (prompt_format question) = .error e) :
    agent_response llm question = "Error while generating response: " ++ e := by
  simp [agent_response, hfail]

/-- C1 witness: a provider stub that raises on every call still yields
the descriptive error string. -/
theorem c1_agent_response_contains_provider_failure_witness :
    (fun _ : String => (Except.error "boom" : Except String String)) (prompt_format "why drift?") = .error "boom"
    ∧ agent_response (fun _ : String => (Except.error "boom" : Except String String)) "why drift?" =
        "Error while generating response: " ++ "boom" :=
  ⟨rfl, c1_agent_response_contains_provider_failure
    (fun _ : String => (Except.error "boom" : Except String String)) "why drift?" "boom" rfl⟩

/-- C2: `get_retrieval_chain p` fails with a not-found error if and only
if no persisted index exists at `p` (the filesystem check fails); and
when it fails for that reason the result is exactly that error — no
chain is constructed, the failure is surfaced to the caller. -/
theorem c2_get_retrieval_chain_not_found_iff (fs : String → Bool)
    (load_local : String → String → Except String (List Entry)) (p : String) :
    ((∃ m, get_retrieval_chain fs load_local p = .error (.fileNotFoundError m)) ↔ fs p = false)
    ∧ (fs p = false →
        get_retrieval_chain fs load_local p =
          .error (.fileNotFoundError ("Vectorstore not found at " ++ p))) := by
  constructor
  · constructor
    · rintro ⟨m, hm⟩
      cases hfs : fs p with
      | false => rfl
      | true =>
        exfalso
        simp only [get_retrieval_chain, hfs] at hm
        cases hl : load_local p hf_model_name <;> rw [hl] at hm <;> simp at hm
    · intro hfs
      refine ⟨"Vectorstore not found at " ++ p, ?_⟩
      simp [get_retrieval_chain, hfs]
  · intro hfs
    simp [get_retrieval_chain, hfs]

/-- C2 witness: on a filesystem with no persisted index anywhere, the
not-found failure is exactly what the call returns. -/
theorem c2_get_retrieval_chain_not_found_iff_witness :
    ((∃ m, get_retrieval_chain (fun _ => false) (fun _ _ => .ok []) "vectorstore/faiss_index" =
        .error (.fileNotFoundError m)) ↔ (fun _ : String => false) "vectorstore/faiss_index" = false)
    ∧ ((fun _ : String => false) "vectorstore/faiss_index" = false →
        get_retrieval_chain (fun _ => false) (fun _ _ => .ok []) "vectorstore/faiss_index" =
          .error (.fileNotFoundError ("Vectorstore not found at " ++ "vectorstore/faiss_index"))) :=
  c2_get_retrieval_chain_not_found_iff (fun _ => false) (fun _ _ => .ok []) "vectorstore/faiss_index"

/-- C4: every chain `get_retrieval_chain` successfully constructs has a
retriever with `k = 3` (the hard-coded `search_kwargs`), and this `k`
satisfies the entry-point requirement of being an integer at least 1. -/
theorem c4_retrieval_chain_k_is_three (fs : String → Bool)
    (load_local : String → String → Except String (List Entry)) (p : String)
    (chain : QAChain) (hok : get_retrieval_chain fs load_local p = .ok chain) :
    chain.retriever_k = 3 ∧ 1 ≤ chain.retriever_k := by
  simp only [get_retrieval_chain] at hok
  cases hfs : fs p <;> rw [hfs] at hok <;> simp at hok
  cases hl : load_local p hf_model_name <;> rw [hl] at hok <;> simp at hok
  rw [← hok]
  exact ⟨rfl, by norm_num⟩

/-- C4 witness: a successfully constructed chain at a concrete loader
has `k = 3 ≥ 1`. -/
theorem c4_retrieval_chain_k_is_three_witness :
    get_retrieval_chain (fun _ => true) (fun _ _ => .ok []) "vectorstore/faiss_index" =
      .ok ⟨"stuff", [], 3, true⟩
    ∧ ((⟨"stuff", [], 3, true⟩ : QAChain).retriever_k = 3
        ∧ 1 ≤ (⟨"stuff", [], 3, true⟩ : QAChain).retriever_k) :=
  ⟨rfl, c4_retrieval_chain_k_is_three (fun _ => true) (fun _ _ => .ok [])
    "vectorstore/faiss_index" ⟨"stuff", [], 3, true⟩ rfl⟩

/-- C3: the `source_chunks` of a `retrieve_and_answer` result are
exactly, and in exactly the order of, the chunks handed to the Answer
Synthesizer: the answer is the synthesizer applied to precisely
`source_chunks`, and `source_chunks` is precisely the ordered search
output — nothing is re-ranked or substituted after synthesis. -/
theorem c3_source_chunks_are_synthesizer_input
    (embed : String → List ℚ) (index : List Entry)
    (synthesize : String → List Chunk → String) (query_text : String) (k : Nat) :
    (retrieve_and_answer embed index synthesize query_text k).source_chunks =
      (search index (embed query_text) k).map (fun p => p.2.chunk)
    ∧ (retrieve_and_answer embed index synthesize query_text k).answer_text =
      synthesize query_text
        ((retrieve_and_answer embed index synthesize query_text k).source_chunks) :=
  ⟨rfl, rfl⟩

/-- C6: whenever the query-time embedding configuration (model name or
output dimension) differs from the configuration the loaded index was
built with, the checked search raises `ConfigMismatchError` and never
returns similarity scores. -/
theorem c6_config_mismatch_always_raised (h : IndexHandle)
    (provider : EmbedConfig) (v : List ℚ) (k : Nat)
    (hne : provider ≠ h.config) :
    search_checked h provider v k = .error .configMismatchError
    ∧ ∀ scores, search_checked h provider v k ≠ .ok scores := by
  refine ⟨by simp [search_checked, hne], ?_⟩
  intro scores
  simp [search_checked, hne]

/-- C6 witness: an index built at dimension 384 queried through a stub
provider of dimension 768 raises the mismatch error, never a score. -/
theorem c6_config_mismatch_always_raised_witness :
    (⟨"stub-768", 768⟩ : EmbedConfig) ≠ (⟨hf_model_name, 384⟩ : EmbedConfig)
    ∧ (search_checked ⟨⟨hf_model_name, 384⟩, []⟩ ⟨"stub-768", 768⟩ [] 1 =
        .error .configMismatchError
      ∧ ∀ scores, search_checked ⟨⟨hf_model_name, 384⟩, []⟩ ⟨"stub-768", 768⟩ [] 1 ≠
          .ok scores) :=
  ⟨by simp, c6_config_mismatch_always_raised ⟨⟨hf_model_name, 384⟩, []⟩
    ⟨"stub-768", 768⟩ [] 1 (by simp)⟩

/-- Strict ranking between search results: strictly higher similarity
score, or tied score and strictly earlier ingestion position. Pairwise
strict ranking of a result list states exactly "sorted by non-increasing
score, ties broken by original ingestion order". -/
def strictRankRel (v : List ℚ) (a b : Nat × Entry) : Prop :=
  score v b.2 < score v a.2 ∨ (score v a.2 = score v b.2 ∧ a.1 < b.1)

/-- C5: for every query vector and every `k ≥ 1`, `search` returns at
most `k` entries, pairwise ordered by non-increasing similarity score
with ties broken by original ingestion order; and when `k` is at least
the index size it returns exactly all entries (a permutation of the
enumerated index), still so ordered. -/
theorem c5_search_sorted_stable_bounded (index : List Entry) (v : List ℚ)
    (k : Nat) (_hk : 1 ≤ k) :
    (search index v k).length ≤ k
    ∧ (search index v k).Pairwise (strictRankRel v)
    ∧ (index.length ≤ k → (search index v k).Perm index.enum) := by
  have hperm := List.perm_insertionSort (rankRel v) index.enum
  have hsorted : (List.insertionSort (rankRel v) index.enum).Pairwise (rankRel v) :=
    List.sorted_insertionSort (rankRel v) index.enum
  have hnodup : ((List.insertionSort (rankRel v) index.enum).map Prod.fst).Nodup :=
    ((hperm.map Prod.fst).nodup_iff).mpr (List.nodup_enum_map_fst index)
  have hpairNe : (List.insertionSort (rankRel v) index.enum).Pairwise
      (fun a b => a.1 ≠ b.1) := (List.pairwise_map).mp hnodup
  have hstrict : (List.insertionSort (rankRel v) index.enum).Pairwise (strictRankRel v) := by
    refine (hsorted.and hpairNe).imp ?_
    rintro a b ⟨hr, hne⟩
    rcases hr with hlt | ⟨heq, hle⟩
    · exact Or.inl hlt
    · exact Or.inr ⟨heq, lt_of_le_of_ne hle hne⟩
  refine ⟨List.length_take_le k _, hstrict.sublist (List.take_sublist k _), ?_⟩
  intro hlen
  have hlen' : (List.insertionSort (rankRel v) index.enum).length ≤ k := by
    rw [hperm.length_eq, List.enum_length]
    exact hlen
  rw [search, List.take_of_length_le hlen']
  exact hperm

/-- C5 witness: a two-entry index queried with `k = 5 ≥ 1` returns at
most five results, strictly ranked, and — the index being smaller than
`k` — exactly all entries. -/
theorem c5_search_sorted_stable_bounded_witness :
    1 ≤ 5
    ∧ ((search [⟨⟨"a", "f", 0⟩, [(1 : ℚ)]⟩, ⟨⟨"b", "f", 1⟩, [(2 : ℚ)]⟩] [(1 : ℚ)] 5).length ≤ 5
      ∧ (search [⟨⟨"a", "f", 0⟩, [(1 : ℚ)]⟩, ⟨⟨"b", "f", 1⟩, [(2 : ℚ)]⟩] [(1 : ℚ)] 5).Pairwise
          (strictRankRel [(1 : ℚ)])
      ∧ (([⟨⟨"a", "f", 0⟩, [(1 : ℚ)]⟩, ⟨⟨"b", "f", 1⟩, [(2 : ℚ)]⟩] : List Entry).length ≤ 5 →
          (search [⟨⟨"a", "f", 0⟩, [(1 : ℚ)]⟩, ⟨⟨"b", "f", 1⟩, [(2 : ℚ)]⟩] [(1 : ℚ)] 5).Perm
            ([⟨⟨"a", "f", 0⟩, [(1 : ℚ)]⟩, ⟨⟨"b", "f", 1⟩, [(2 : ℚ)]⟩] : List Entry).enum)) :=
  ⟨by norm_num, c5_search_sorted_stable_bounded
    [⟨⟨"a", "f", 0⟩, [(1 : ℚ)]⟩, ⟨⟨"b", "f", 1⟩, [(2 : ℚ)]⟩] [(1 : ℚ)] 5 (by norm_num)⟩

/-- Helper for C7: if some chunk in the list fails to embed, the whole
embedding pass fails. -/
theorem embed_all_error_of_mem (embed : String → Except String (List ℚ))
    (cs : List Chunk) (c : Chunk) (e : String)
    (hc : c ∈ cs) (he : embed c.text = .error e) :
    ∃ msg, embed_all embed cs = .error msg := by
  induction cs with
  | nil => cases hc
  | cons d ds ih =>
    rcases List.mem_cons.mp hc with rfl | hmem
    · exact ⟨e, by simp [embed_all, he]⟩
    · cases hd : embed d.text with
      | error e' => exact ⟨e', by simp [embed_all, hd]⟩
      | ok w =>
        rcases ih hmem with ⟨msg, hmsg⟩
        exact ⟨msg, by simp [embed_all, hd, hmsg]⟩

/-- C7: if embedding any single chunk fails during ingestion, the
previously persisted state (Vector Index entries and Docs Metadata
Manifest alike) is returned unchanged and a failure is reported;
ingestion commits the fully-built new generation only on full success,
as a single atomic state transition, so no intermediate state exists
for a reader to observe. -/
theorem c7_failed_ingest_preserves_state
    (embed : String → Except String (List ℚ)) (files : List File)
    (s : PersistedState) (c : Chunk) (e : String)
    (hc : c ∈ all_chunks files) (he : embed c.text = .error e) :
    (ingest_folder embed files s).1 = s
    ∧ ∃ msg, (ingest_folder embed files s).2 = .error msg := by
  rcases embed_all_error_of_mem embed (all_chunks files) c e hc he with ⟨msg, hmsg⟩
  exact ⟨by simp [ingest_folder, hmsg], msg, by simp [ingest_folder, hmsg]⟩

/-- C7 witness: with an always-failing embedding provider and one
single-chunk file, ingestion leaves a concrete prior state untouched. -/
theorem c7_failed_ingest_preserves_state_witness :
    (⟨"x", "lot1.log", 0⟩ : Chunk) ∈ all_chunks [⟨"lot1.log", "x"⟩]
    ∧ (fun _ : String => (Except.error "embed down" : Except String (List ℚ))) "x" = .error "embed down"
    ∧ ((ingest_folder (fun _ => .error "embed down") [⟨"lot1.log", "x"⟩]
          ⟨[⟨⟨"old", "old.log", 0⟩, [(1 : ℚ)]⟩], [⟨"old", "old.log", 0⟩]⟩).1 =
        ⟨[⟨⟨"old", "old.log", 0⟩, [(1 : ℚ)]⟩], [⟨"old", "old.log", 0⟩]⟩
      ∧ ∃ msg, (ingest_folder (fun _ => .error "embed down") [⟨"lot1.log", "x"⟩]
          ⟨[⟨⟨"old", "old.log", 0⟩, [(1 : ℚ)]⟩], [⟨"old", "old.log", 0⟩]⟩).2 = .error msg) :=
  ⟨by decide, rfl, c7_failed_ingest_preserves_state (fun _ => .error "embed down")
    [⟨"lot1.log", "x"⟩] ⟨[⟨⟨"old", "old.log", 0⟩, [(1 : ℚ)]⟩], [⟨"old", "old.log", 0⟩]⟩
    ⟨"x", "lot1.log", 0⟩ "embed down" (by decide) rfl⟩

/-- C8: ingestion is idempotent — with a deterministic embedding
provider, running a successful ingestion of the same unchanged folder a
second time yields an index with identical chunk count and identical
embedding vectors (in fact an identical persisted state). -/
theorem c8_reingest_identical_index
    (embed : String → Except String (List ℚ)) (files : List File)
    (s₀ : PersistedState) (r : IndexBuildReport)
    (hok : (ingest_folder embed files s₀).2 = .ok r) :
    ((ingest_folder embed files ((ingest_folder embed files s₀).1)).1).entries.length =
      ((ingest_folder embed files s₀).1).entries.length
    ∧ ((ingest_folder embed files ((ingest_folder embed files s₀).1)).1).entries.map Entry.vec =
      ((ingest_folder embed files s₀).1).entries.map Entry.vec := by
  cases hall : embed_all embed (all_chunks files) with
  | error e => simp [ingest_folder, hall] at hok
  | ok entries => simp [ingest_folder, hall]

/-- C8 witness: a concrete deterministic provider and one-file folder,
ingested twice from the empty state, give identical index contents. -/
theorem c8_reingest_identical_index_witness :
    (ingest_folder (fun _ => .ok [(0 : ℚ)]) [⟨"lot1.log", "x"⟩] ⟨[], []⟩).2 = .ok ⟨1, 1⟩
    ∧ ((ingest_folder (fun _ => .ok [(0 : ℚ)]) [⟨"lot1.log", "x"⟩]
          ((ingest_folder (fun _ => .ok [(0 : ℚ)]) [⟨"lot1.log", "x"⟩] ⟨[], []⟩).1)).1.entries.length =
        ((ingest_folder (fun _ => .ok [(0 : ℚ)]) [⟨"lot1.log", "x"⟩] ⟨[], []⟩).1).entries.length
      ∧ (ingest_folder (fun _ => .ok [(0 : ℚ)]) [⟨"lot1.log", "x"⟩]
          ((ingest_folder (fun _ => .ok [(0 : ℚ)]) [⟨"lot1.log", "x"⟩] ⟨[], []⟩).1)).1.entries.map Entry.vec =
        ((ingest_folder (fun _ => .ok [(0 : ℚ)]) [⟨"lot1.log", "x"⟩] ⟨[], []⟩).1).entries.map Entry.vec) :=
  ⟨rfl, c8_reingest_identical_index (fun _ => .ok [(0 : ℚ)]) [⟨"lot1.log", "x"⟩]
    ⟨[], []⟩ ⟨1, 1⟩ rfl⟩

/-- C10: `analyze_vm_data data_list` returns a record whose `stats`
field equals `compute_stats data_list` and whose `rules` field has
exactly one entry per input value, the i-th entry being
`simple_rule_check` of the i-th input value with threshold 0.005, in
input order. -/
theorem c10_analyze_vm_data_fields {σ : Type} (compute_stats : List ℚ → σ)
    (simple_rule_check : ℚ → ℚ → Bool) (data_list : List ℚ) :
    (analyze_vm_data compute_stats simple_rule_check data_list).stats = compute_stats data_list
    ∧ (analyze_vm_data compute_stats simple_rule_check data_list).rules.length = data_list.length
    ∧ ∀ i (h : i < data_list.length),
        (analyze_vm_data compute_stats simple_rule_check data_list).rules[i]? =
          some (simple_rule_check (data_list.get ⟨i, h⟩) (5 / 1000)) := by
  refine ⟨rfl, by simp [analyze_vm_data], ?_⟩
  intro i h
  simp [analyze_vm_data, List.getElem?_eq_getElem h]

/-- C10 witness: at a concrete stats function, rule check and data list,
the first rule entry is the rule check of the first value. -/
theorem c10_analyze_vm_data_fields_witness :
    0 < [(1 : ℚ), 0].length
    ∧ (analyze_vm_data (fun l : List ℚ => l.length) (fun v t => decide (t < v))
        [(1 : ℚ), 0]).rules[0]? =
        some ((fun v t => decide (t < v)) ([(1 : ℚ), 0].get ⟨0, by norm_num⟩) (5 / 1000)) :=
  ⟨by norm_num, (c10_analyze_vm_data_fields (fun l : List ℚ => l.length)
    (fun v t => decide (t < v)) [(1 : ℚ), 0]).2.2 0 (by norm_num)⟩

end VirtualMetrology
